import Mathlib

/-!
Shallow embedding of the house-counter spatial caching subsystem
(`src/cache_manager.py`, `src/ms_buildings.py`, `src/main.py`).

Modelling conventions:
* Python floats that only flow through arithmetic comparisons and
  rational-valued formulas are modelled as `ℚ`; timestamps (`time.time()`
  values and file mtimes) are `ℚ`.
* `get_bounding_box` uses transcendental functions and is modelled over `ℝ`
  in its own section.
* A Python `dict` is an insertion-ordered association list: update keeps the
  key's position, a fresh key is appended at the end, iteration order is
  list order (this matches CPython dict semantics used by `min(_query_cache,
  key=...)`).
* GeoDataFrames are lists of abstract row values `β`; the geometric
  predicates applied to rows (bbox clip `.cx`, circle intersection after UTM
  projection) are passed in as oracle functions `β → Bool`, since the spec
  treats projection/geodesy as an external library.
-/

namespace HouseCounter

/-- Python-dict lookup: first (unique) binding for the key. -/
def dictGet {K V : Type} [DecidableEq K] : List (K × V) → K → Option V
  | [], _ => none
  | (k', v') :: rest, k => if k' = k then some v' else dictGet rest k

/-- Python-dict assignment `d[k] = v`: updates in place keeping the key's
position, otherwise appends at the end. -/
def dictInsert {K V : Type} [DecidableEq K] : List (K × V) → K → V → List (K × V)
  | [], k, v => [(k, v)]
  | (k', v') :: rest, k, v =>
      if k' = k then (k, v) :: rest else (k', v') :: dictInsert rest k v

/-- Python-dict deletion `del d[k]`: removes the (unique) binding. -/
def dictDelete {K V : Type} [DecidableEq K] : List (K × V) → K → List (K × V)
  | [], _ => []
  | (k', v') :: rest, k => if k' = k then rest else (k', v') :: dictDelete rest k

theorem dictGet_dictInsert_self {K V : Type} [DecidableEq K]
    (m : List (K × V)) (k : K) (v : V) :
    dictGet (dictInsert m k v) k = some v := by
  induction m with
  | nil => simp [dictInsert, dictGet]
  | cons p rest ih =>
      obtain ⟨k', v'⟩ := p
      by_cases h : k' = k <;> simp [dictInsert, dictGet, h, ih]

theorem dictDelete_length_of_mem {K V : Type} [DecidableEq K]
    (m : List (K × V)) (k : K) (h : k ∈ m.map Prod.fst) :
    (dictDelete m k).length + 1 = m.length := by
  induction m with
  | nil => simp at h
  | cons p rest ih =>
      obtain ⟨k', v'⟩ := p
      by_cases hk : k' = k
      · simp [dictDelete, hk]
      · simp only [List.map_cons, List.mem_cons] at h
        rcases h with h | h
        · exact absurd h.symm hk
        · simp [dictDelete, hk, ih h]

theorem dictInsert_length_of_not_mem {K V : Type} [DecidableEq K]
    (m : List (K × V)) (k : K) (v : V) (h : k ∉ m.map Prod.fst) :
    (dictInsert m k v).length = m.length + 1 := by
  induction m with
  | nil => simp [dictInsert]
  | cons p rest ih =>
      obtain ⟨k', v'⟩ := p
      simp only [List.map_cons, List.mem_cons] at h
      push_neg at h
      simp [dictInsert, Ne.symm h.1, ih h.2]

theorem dictDelete_keys_subset {K V : Type} [DecidableEq K]
    (m : List (K × V)) (k k' : K) (h : k' ∈ (dictDelete m k).map Prod.fst) :
    k' ∈ m.map Prod.fst := by
  induction m with
  | nil => simp [dictDelete] at h
  | cons p rest ih =>
      obtain ⟨k₀, v₀⟩ := p
      by_cases hk : k₀ = k
      · simp only [dictDelete, if_pos hk] at h
        simp [h]
      · simp only [dictDelete, if_neg hk, List.map_cons, List.mem_cons] at h ⊢
        rcases h with h | h
        · exact Or.inl h
        · exact Or.inr (ih h)

/-- Python's `round()` to an integer: round half to even (banker's rounding),
as used by `round(x, n)`. -/
def roundHalfEven (q : ℚ) : ℤ :=
  let f := ⌊q⌋
  let r := q - f
  if r < 1/2 then f
  else if 1/2 < r then f + 1
  else if f % 2 = 0 then f else f + 1

/-- Python `round(q, p)` for nonnegative decimal places `p`. -/
def roundTo (q : ℚ) (p : ℕ) : ℚ :=
  (roundHalfEven (q * 10 ^ p) : ℚ) / 10 ^ p

/-- Python `round(q, 2)` as used for `area_km2` and the area statistics. -/
def round2 (q : ℚ) : ℚ := roundTo q 2

-- ---------------------------------------------------------------------------
-- ms_buildings.py: in-memory memo cache over (lat, lon, radius) keys
-- ---------------------------------------------------------------------------

/-- The constant `_CACHE_MAX_SIZE = 50`. -/
def CACHE_MAX_SIZE : ℕ := 50

/-- The constant `_CACHE_TTL_SECONDS = 300`. -/
def CACHE_TTL_SECONDS : ℚ := 300

/-- The key quantization `_get_cache_key`: `(round(lat, 6), round(lon, 6), round(radius_meters, 1))`. -/
def get_cache_key (lat lon radius_meters : ℚ) : ℚ × ℚ × ℚ :=
  (roundTo lat 6, roundTo lon 6, roundTo radius_meters 1)

/-- The `_query_cache` dict: quantized key ↦ (GeoDataFrame rows, insertion time). -/
abbrev Memo (β : Type) : Type := List ((ℚ × ℚ × ℚ) × (List β × ℚ))

/-- First entry carrying the minimal insertion timestamp, as computed by
`min(_query_cache, key=lambda k: _query_cache[k][1])` (Python `min` keeps the
earliest-iterated entry on ties). -/
def minByTime {β : Type} : Memo β → Option ((ℚ × ℚ × ℚ) × (List β × ℚ))
  | [] => none
  | x :: xs => some (xs.foldl (fun b y => if y.2.2 < b.2.2 then y else b) x)

/-- The memo-cache read at the top of `_fetch_and_filter_buildings`
(ms_buildings.py lines 86-91): a hit strictly within the TTL returns the rows;
an expired entry is deleted and the lookup is a miss. -/
def cacheGet {β : Type} (m : Memo β) (k : ℚ × ℚ × ℚ) (now : ℚ) :
    Option (List β) × Memo β :=
  match dictGet m k with
  | none => (none, m)
  | some (v, t) =>
      if now - t < CACHE_TTL_SECONDS then (some v, m) else (none, dictDelete m k)

/-- The guarded memo-cache insertion (ms_buildings.py lines 128-131 and
184-187): when the cache holds at least `CACHE_MAX_SIZE` entries the oldest
entry is deleted first, then the new binding is stored. -/
def cachePut {β : Type} (m : Memo β) (k : ℚ × ℚ × ℚ) (v : List β) (now : ℚ) :
    Memo β :=
  let m' :=
    if CACHE_MAX_SIZE ≤ m.length then
      match minByTime m with
      | some oldest => dictDelete m oldest.1
      | none => m
    else m
  dictInsert m' k (v, now)

theorem foldlMin_mem {α : Type} (f : α → ℚ) :
    ∀ (xs : List α) (x : α),
      xs.foldl (fun b y => if f y < f b then y else b) x ∈ x :: xs := by
  intro xs
  induction xs with
  | nil => intro x; simp
  | cons y ys ih =>
      intro x
      simp only [List.foldl_cons]
      by_cases hy : f y < f x
      · simp only [if_pos hy]
        rcases List.mem_cons.mp (ih y) with h | h
        · rw [h]; simp
        · exact List.mem_cons.mpr (Or.inr (List.mem_cons.mpr (Or.inr h)))
      · simp only [if_neg hy]
        rcases List.mem_cons.mp (ih x) with h | h
        · rw [h]; simp
        · exact List.mem_cons.mpr (Or.inr (List.mem_cons.mpr (Or.inr h)))

theorem foldlMin_le {α : Type} (f : α → ℚ) :
    ∀ (xs : List α) (x : α), ∀ e ∈ x :: xs,
      f (xs.foldl (fun b y => if f y < f b then y else b) x) ≤ f e := by
  intro xs
  induction xs with
  | nil => intro x e he; simp at he; simp [he]
  | cons y ys ih =>
      intro x e he
      simp only [List.foldl_cons]
      by_cases hy : f y < f x
      · simp only [if_pos hy]
        rcases List.mem_cons.mp he with rfl | he'
        · exact le_trans (ih y y (List.mem_cons_self _ _)) (le_of_lt hy)
        · rcases List.mem_cons.mp he' with rfl | he''
          · exact ih e e (List.mem_cons_self _ _)
          · exact ih y e (List.mem_cons.mpr (Or.inr he''))
      · simp only [if_neg hy]
        push_neg at hy
        rcases List.mem_cons.mp he with rfl | he'
        · exact ih e e (List.mem_cons_self _ _)
        · rcases List.mem_cons.mp he' with rfl | he''
          · exact le_trans (ih x x (List.mem_cons_self _ _)) hy
          · exact ih x e (List.mem_cons.mpr (Or.inr he''))

theorem minByTime_mem {β : Type} (m : Memo β) (o : (ℚ × ℚ × ℚ) × (List β × ℚ))
    (h : minByTime m = some o) : o ∈ m := by
  match m with
  | [] => simp [minByTime] at h
  | x :: xs =>
      simp only [minByTime, Option.some_inj] at h
      exact h ▸ foldlMin_mem (fun e => e.2.2) xs x

theorem minByTime_le {β : Type} (m : Memo β) (o : (ℚ × ℚ × ℚ) × (List β × ℚ))
    (h : minByTime m = some o) : ∀ e ∈ m, o.2.2 ≤ e.2.2 := by
  match m with
  | [] => simp [minByTime] at h
  | x :: xs =>
      simp only [minByTime, Option.some_inj] at h
      exact h ▸ foldlMin_le (fun e => e.2.2) xs x

-- ---------------------------------------------------------------------------
-- cache_manager.py: data model
-- ---------------------------------------------------------------------------

/-- The constant `MAX_CACHE_AREA_KM2 = 10000`. -/
def MAX_CACHE_AREA_KM2 : ℚ := 10000

/-- The constant `AVG_BYTES_PER_BUILDING = 160`. -/
def AVG_BYTES_PER_BUILDING : ℕ := 160

/-- The constant `DEFAULT_DENSITY_PER_KM2 = 200`. -/
def DEFAULT_DENSITY_PER_KM2 : ℕ := 200

/-- A bounding box `(min_lon, min_lat, max_lon, max_lat)`. -/
structure Bbox where
  min_lon : ℚ
  min_lat : ℚ
  max_lon : ℚ
  max_lat : ℚ
deriving DecidableEq, Repr

/-- One record of the `"areas"` list in `cache_index.json`: the dict built in
`cache_area` (cache_manager.py lines 266-279).  `building_count` and
`file_size_bytes` are optional because `get_stats` reads them with
`a.get(..., 0)`, treating a missing field as 0; the other fields are accessed
unconditionally. -/
structure AreaEntry where
  id : String
  name : String
  bbox : Bbox
  center_lat : ℚ
  center_lon : ℚ
  radius_km : Option ℚ
  area_km2 : ℚ
  building_count : Option ℕ
  file_size_bytes : Option ℕ
  file_path : String
  created_at : ℚ
  last_accessed : ℚ
deriving DecidableEq, Repr

/-- The observable state of a `CacheManager` plus its cache directory.
`memIndex`/`memMtime` are the in-process `self._index["areas"]` and
`self._index_mtime`; `diskIndex`/`diskMtime` are the on-disk
`cache_index.json` contents and its mtime; `files` maps a relative file path
to its parquet contents (`none` models a file whose read raises, i.e. a
corrupt file). -/
structure StoreState (β : Type) where
  memIndex : List AreaEntry
  memMtime : ℚ
  diskIndex : List AreaEntry
  diskMtime : ℚ
  files : List (String × Option (List β))
deriving DecidableEq

/-- The method `_ensure_fresh` (cache_manager.py lines 82-86): reload the index when the
on-disk file is strictly newer than the last-loaded timestamp.  (`_load_index`
also records the file's mtime, lines 68-73.) -/
def ensure_fresh {β : Type} (s : StoreState β) : StoreState β :=
  if s.memMtime < s.diskMtime then
    { s with memIndex := s.diskIndex, memMtime := s.diskMtime }
  else s

/-- The method `_save_index` (cache_manager.py lines 76-80): rewrite the whole index file
from the in-process view, then record the resulting mtime.  `newMtime` is the
mtime the filesystem assigns to the rewritten file. -/
def save_index {β : Type} (s : StoreState β) (newMtime : ℚ) : StoreState β :=
  { s with diskIndex := s.memIndex, diskMtime := newMtime, memMtime := newMtime }

/-- The method `get_cached_areas`: freshness reconciliation, then a snapshot of the list. -/
def get_cached_areas {β : Type} (s : StoreState β) :
    List AreaEntry × StoreState β :=
  let s' := ensure_fresh s
  (s'.memIndex, s')

/-- The result dict of `get_stats` (cache_manager.py lines 95-104). -/
structure Stats where
  total_areas : ℕ
  total_buildings : ℕ
  total_size_bytes : ℕ
deriving DecidableEq, Repr

/-- The method `get_stats`: totals over the areas returned by `get_cached_areas`, with a
missing `file_size_bytes` / `building_count` field counting as 0. -/
def get_stats {β : Type} (s : StoreState β) : Stats × StoreState β :=
  let (areas, s') := get_cached_areas s
  ({ total_areas := areas.length
     total_buildings := (areas.map (fun a => a.building_count.getD 0)).sum
     total_size_bytes := (areas.map (fun a => a.file_size_bytes.getD 0)).sum },
   s')

/-- The dict returned by `estimate_cache_size`.  `raw_area_km2` is the
unrounded `area_km2` Python local used for the building estimate; the
dict's `"area_km2"` entry is the rounded `area_km2` field. -/
structure Estimate where
  area_km2 : ℚ
  estimated_buildings : ℕ
  estimated_size_bytes : ℕ
deriving DecidableEq, Repr

/-- The method `estimate_cache_size` (cache_manager.py lines 106-120).  `cosCenterLat`
stands for `math.cos(math.radians(center_lat))`, supplied by the caller's
geodesy oracle since cosine is not rational. -/
def estimate_cache_size (bbox : Bbox) (cosCenterLat : ℚ) : Estimate :=
  let lat_km := (bbox.max_lat - bbox.min_lat) * (11132 / 100)
  let lon_km := (bbox.max_lon - bbox.min_lon) * (11132 / 100) * cosCenterLat
  let area_km2 := |lat_km * lon_km|
  let est_buildings := (⌊area_km2 * (DEFAULT_DENSITY_PER_KM2 : ℚ)⌋).toNat
  { area_km2 := round2 area_km2
    estimated_buildings := est_buildings
    estimated_size_bytes := est_buildings * AVG_BYTES_PER_BUILDING }

/-- The covering test of `find_covering_cache` (cache_manager.py lines
132-133): the stored bbox contains the query bbox on every edge. -/
def covers (a : AreaEntry) (b : Bbox) : Bool :=
  a.bbox.min_lon ≤ b.min_lon && a.bbox.min_lat ≤ b.min_lat &&
  a.bbox.max_lon ≥ b.max_lon && a.bbox.max_lat ≥ b.max_lat

/-- The method `find_covering_cache` (cache_manager.py lines 122-135): freshness
reconciliation, snapshot, then the first indexed area covering the query. -/
def find_covering_cache {β : Type} (s : StoreState β) (b : Bbox) :
    Option AreaEntry × StoreState β :=
  let s' := ensure_fresh s
  (s'.memIndex.find? (fun a => covers a b), s')

/-- The overlap test of `find_overlapping` (cache_manager.py lines 148-149):
not disjoint on either axis. -/
def overlaps (a : AreaEntry) (b : Bbox) : Bool :=
  !(a.bbox.max_lon < b.min_lon || a.bbox.min_lon > b.max_lon ||
    a.bbox.max_lat < b.min_lat || a.bbox.min_lat > b.max_lat)

/-- The method `find_overlapping` (cache_manager.py lines 137-151). -/
def find_overlapping {β : Type} (s : StoreState β) (b : Bbox) :
    List AreaEntry × StoreState β :=
  let s' := ensure_fresh s
  (s'.memIndex.filter (fun a => overlaps a b), s')

/-- The in-place `target["last_accessed"] = now` of `load_geodataframe`:
update the first index entry with the given id. -/
def bumpAccess : List AreaEntry → String → ℚ → List AreaEntry
  | [], _, _ => []
  | a :: rest, i, t =>
      if a.id = i then { a with last_accessed := t } :: rest
      else a :: bumpAccess rest i t

/-- The method `load_geodataframe` (cache_manager.py lines 153-172): freshness
reconciliation, find the entry by id (`.ok none` if unknown), resolve its file
(`.ok none` if missing, `.error ()` if reading raises), and on success update
`last_accessed` and persist the index.  `now` is the access timestamp and
`newMtime` the mtime of the rewritten index file. -/
def load_geodataframe {β : Type} (s : StoreState β) (area_id : String)
    (now newMtime : ℚ) : Except Unit (Option (List β)) × StoreState β :=
  let s' := ensure_fresh s
  match s'.memIndex.find? (fun a => a.id = area_id) with
  | none => (.ok none, s')
  | some target =>
      match dictGet s'.files target.file_path with
      | none => (.ok none, s')
      | some none => (.error (), s')
      | some (some gdf) =>
          let s'' := { s' with memIndex := bumpAccess s'.memIndex area_id now }
          (.ok (some gdf), save_index s'' newMtime)

/-- The method `cache_area` (cache_manager.py lines 176-290).  The remote stream is the
list of record-batch row lists `download`; `hasGeometry` models the
`"geometry" in df.columns` test; `cosCenterLat` is the cosine oracle for the
bbox's center latitude; `newId`, `fileSize`, `now` and `newMtime` stand for
`uuid.uuid4().hex[:8]`, the stat'd size of the written parquet file, the
current UTC time and the rewritten index file's mtime.  Returns
`.error ()` for the `ValueError` raised on the size limit. -/
def cache_area {β : Type} (s : StoreState β) (bbox : Bbox) (name : String)
    (center_lat center_lon : ℚ) (radius_km : Option ℚ) (cosCenterLat : ℚ)
    (download : List (List β)) (hasGeometry : Bool)
    (newId : String) (fileSize : ℕ) (now newMtime : ℚ) :
    Except Unit (Option AreaEntry) × StoreState β :=
  let est := estimate_cache_size bbox cosCenterLat
  if MAX_CACHE_AREA_KM2 < est.area_km2 then (.error (), s)
  else
    let total_rows := (download.map List.length).sum
    if download.isEmpty ∨ total_rows = 0 then (.ok none, s)
    else if !hasGeometry then (.ok none, s)
    else
      let rows := download.flatten
      let lat_km := (bbox.max_lat - bbox.min_lat) * (11132 / 100)
      let lon_km := (bbox.max_lon - bbox.min_lon) * (11132 / 100) * cosCenterLat
      let area_km2 := |lat_km * lon_km|
      let entry : AreaEntry :=
        { id := newId
          name := name
          bbox := bbox
          center_lat := center_lat
          center_lon := center_lon
          radius_km := radius_km
          area_km2 := round2 area_km2
          building_count := some rows.length
          file_size_bytes := some fileSize
          file_path := newId ++ ".parquet"
          created_at := now
          last_accessed := now }
      let s' := { s with files := dictInsert s.files (newId ++ ".parquet") (some rows) }
      let s'' := { s' with memIndex := s'.memIndex ++ [entry] }
      (.ok (some entry), save_index s'' newMtime)

/-- Remove the first index entry with the given id (`pop(i)` in
`delete_area`). -/
def removeById : List AreaEntry → String → List AreaEntry
  | [], _ => []
  | a :: rest, i => if a.id = i then rest else a :: removeById rest i

/-- The method `delete_area` (cache_manager.py lines 292-302): unlink the backing file
(if it exists), drop the index entry, persist. -/
def delete_area {β : Type} (s : StoreState β) (area_id : String)
    (newMtime : ℚ) : Bool × StoreState β :=
  match s.memIndex.find? (fun a => a.id = area_id) with
  | none => (false, s)
  | some a =>
      let s' := { s with
        files := dictDelete s.files a.file_path
        memIndex := removeById s.memIndex area_id }
      (true, save_index s' newMtime)

/-- The method `clear_all` (cache_manager.py lines 304-314): unlink every referenced
file, empty the list, persist; returns the number of entries removed. -/
def clear_all {β : Type} (s : StoreState β) (newMtime : ℚ) :
    ℕ × StoreState β :=
  let count := s.memIndex.length
  let files' := s.memIndex.foldl (fun fs a => dictDelete fs a.file_path) s.files
  (count, save_index { s with files := files', memIndex := [] } newMtime)

-- ---------------------------------------------------------------------------
-- ms_buildings.py: query resolution pipeline
-- ---------------------------------------------------------------------------

/-- The mutable state touched by a point-radius query: the module-level
`_query_cache` and the singleton `CacheManager`. -/
structure Sys (β : Type) where
  memo : Memo β
  store : StoreState β
deriving DecidableEq

/-- The resolver `_fetch_and_filter_buildings` (ms_buildings.py lines 73-189).

Inputs standing for the impure parts:
* `bbox` — the value of `get_bounding_box(lat, lon, radius_meters)` (real
  trigonometry, modelled separately over `ℝ`);
* `inBbox` — the row predicate of the `.cx[min_lon:max_lon, min_lat:max_lat]`
  clip; `inCircle` — the row predicate of `geometry.intersects(circle)` after
  UTM projection (both external geometry);
* `remote` — the outcome of the Overture Maps read: `.error ()` when
  `record_batch_reader(...).read_all()` raises, `.ok rows` otherwise;
* `hasGeometry` — the `'geometry' in gdf.columns` test on the remote rows;
* `now` — the `time.time()` clock; `newMtime` — the index-file mtime written
  by a `load_geodataframe` access bump. -/
def remote_query_step {β : Type} (memo : Memo β) (store : StoreState β)
    (key : ℚ × ℚ × ℚ) (inCircle : β → Bool) (remote : Except Unit (List β))
    (hasGeometry : Bool) (now : ℚ) : List β × Sys β :=
  match remote with
  | .error _ => ([], { memo := memo, store := store })
  | .ok rows =>
      if rows.length = 0 then
        ([], { memo := dictInsert memo key ([], now), store := store })
      else if !hasGeometry then
        ([], { memo := dictInsert memo key ([], now), store := store })
      else
        let refined := rows.filter inCircle
        (refined, { memo := cachePut memo key refined now, store := store })

def fetch_and_filter_buildings {β : Type} (sys : Sys β)
    (lat lon radius_meters : ℚ) (bbox : Bbox) (inBbox inCircle : β → Bool)
    (remote : Except Unit (List β)) (hasGeometry : Bool) (now newMtime : ℚ) :
    List β × Sys β :=
  let key := get_cache_key lat lon radius_meters
  let memoLookup := cacheGet sys.memo key now
  match memoLookup.1 with
  | some cached => (cached, { sys with memo := memoLookup.2 })
  | none =>
      -- persistent disk cache branch; the source wraps it in try/except, so
      -- a load exception (`.error`), a missing/unknown file (`.ok none`) and
      -- a zero-row load all fall through to the remote query
      -- (`remote_query_step`) with the store as the attempt left it
      let memo₁ := memoLookup.2
      let store₁ := (find_covering_cache sys.store bbox).2
      match (find_covering_cache sys.store bbox).1 with
      | none =>
          remote_query_step memo₁ store₁ key inCircle remote hasGeometry now
      | some covering =>
          let store₂ := (load_geodataframe store₁ covering.id now newMtime).2
          match (load_geodataframe store₁ covering.id now newMtime).1 with
          | .error _ =>
              remote_query_step memo₁ store₂ key inCircle remote hasGeometry
                now
          | .ok none =>
              remote_query_step memo₁ store₂ key inCircle remote hasGeometry
                now
          | .ok (some disk_gdf) =>
              if 0 < disk_gdf.length then
                let clipped := disk_gdf.filter inBbox
                let refined := clipped.filter inCircle
                (refined,
                 { memo := cachePut memo₁ key refined now, store := store₂ })
              else
                remote_query_step memo₁ store₂ key inCircle remote hasGeometry
                  now

/-- The endpoint helper `count_buildings_in_radius` (ms_buildings.py lines 196-219).  `areaOf`
stands for the per-row projected area `gdf_utm.area` (external geometry). -/
def count_buildings_in_radius {β : Type} (sys : Sys β)
    (lat lon radius_meters : ℚ) (bbox : Bbox) (inBbox inCircle : β → Bool)
    (remote : Except Unit (List β)) (hasGeometry : Bool) (now newMtime : ℚ)
    (areaOf : β → ℚ) : (ℕ × ℚ × ℚ) × Sys β :=
  let (gdf, sys') := fetch_and_filter_buildings sys lat lon radius_meters bbox
      inBbox inCircle remote hasGeometry now newMtime
  if gdf.length = 0 then ((0, 0, 0), sys')
  else
    let total_area := (gdf.map areaOf).sum
    ((gdf.length, round2 total_area, round2 (total_area / gdf.length)), sys')

-- ---------------------------------------------------------------------------
-- main.py: /cache/start endpoint
-- ---------------------------------------------------------------------------

/-- One `_task_progress[task_id]` record (main.py lines 481-486). -/
structure TaskRec where
  status : String
  progress : ℕ
  message : String
deriving DecidableEq, Repr

/-- The synchronous part of `start_cache` (main.py lines 468-489): validate
the size estimate and either reject with a 400 (`.error ()`) leaving the task
registry untouched, or create the `queued` task record. -/
def start_cache (tasks : List (String × TaskRec)) (bbox : Bbox)
    (cosCenterLat : ℚ) (newTaskId : String) :
    Except Unit String × List (String × TaskRec) :=
  let est := estimate_cache_size bbox cosCenterLat
  if (10000 : ℚ) < est.area_km2 then (.error (), tasks)
  else
    (.ok newTaskId,
     dictInsert tasks newTaskId
       { status := "queued", progress := 0, message := "Queued…" })

-- ---------------------------------------------------------------------------
-- ms_buildings.py: get_bounding_box (real trigonometry)
-- ---------------------------------------------------------------------------

/-- The function `get_bounding_box` (ms_buildings.py lines 37-55), over `ℝ`.
`math.radians(x) = x·π/180`, `math.degrees(x) = x·180/π`.  `math.asin`
raises `ValueError` outside `[-1, 1]`, modelled as `none`; inside the domain
it agrees with `Real.arcsin`. -/
noncomputable def get_bounding_box (lat lon radius_meters : ℝ) :
    Option (ℝ × ℝ × ℝ × ℝ) :=
  let R : ℝ := 6371000
  let angular_distance := radius_meters / R
  let lat_rad := lat * (Real.pi / 180)
  let lon_rad := lon * (Real.pi / 180)
  let min_lat := (lat_rad - angular_distance) * (180 / Real.pi)
  let max_lat := (lat_rad + angular_distance) * (180 / Real.pi)
  let x := Real.sin angular_distance / Real.cos lat_rad
  if |x| ≤ 1 then
    let delta_lon := Real.arcsin x
    some ((lon_rad - delta_lon) * (180 / Real.pi), min_lat,
          (lon_rad + delta_lon) * (180 / Real.pi), max_lat)
  else none

-- ---------------------------------------------------------------------------
-- Derived notions used by the theorems
-- ---------------------------------------------------------------------------

/-- A store state whose in-process view is trustworthy: either the disk file
is newer (and the next freshness check will reload it), or the in-process
index agrees with the disk contents.  Every state reachable by the store's
own operations from a freshly-loaded index satisfies this. -/
def coherent {β : Type} (s : StoreState β) : Prop :=
  s.memMtime < s.diskMtime ∨ s.memIndex = s.diskIndex

/-- Erase the `last_accessed` field, to compare index entries up to the
access-time bump performed by `load_geodataframe`. -/
def stripAccess (a : AreaEntry) : AreaEntry := { a with last_accessed := 0 }

-- ---------------------------------------------------------------------------
-- Concrete fixtures for witnesses and counterexamples
-- ---------------------------------------------------------------------------

/-- A sample cached-area record. -/
def sampleArea : AreaEntry :=
  { id := "a1", name := "tulsa", bbox := ⟨0, 0, 10, 10⟩
    center_lat := 5, center_lon := 5, radius_km := none, area_km2 := 1
    building_count := some 3, file_size_bytes := some 640
    file_path := "a1.parquet", created_at := 0, last_accessed := 0 }

/-- A store holding `sampleArea`, its index in sync with disk, and the
backing file present with three rows. -/
def sampleStore : StoreState ℕ :=
  { memIndex := [sampleArea], memMtime := 1
    diskIndex := [sampleArea], diskMtime := 1
    files := [("a1.parquet", some [10, 20, 30])] }

/-- A store whose index file was externally rewritten after the last load:
the disk holds `sampleArea` with a newer mtime while the process still sees
an empty list. -/
def staleStore : StoreState ℕ :=
  { memIndex := [], memMtime := 1
    diskIndex := [sampleArea], diskMtime := 2
    files := [("a1.parquet", some [10, 20, 30])] }

/-- An empty system: no memo entries, no cached areas, no files. -/
def emptySys : Sys ℕ :=
  { memo := [], store := ⟨[], 0, [], 0, []⟩ }

/-- A memo cache filled with `CACHE_MAX_SIZE` distinct quantized keys
`(i, 0, 0)`, all holding empty results inserted at time 0. -/
def fullMemo : Memo ℕ :=
  (List.range CACHE_MAX_SIZE).map (fun i => (((i : ℚ), 0, 0), ([], 0)))

/-- A system at memo capacity over an empty store. -/
def fullSys : Sys ℕ :=
  { memo := fullMemo, store := ⟨[], 0, [], 0, []⟩ }

/-- A query bbox strictly inside `sampleArea`'s bbox. -/
def innerBbox : Bbox := ⟨1, 1, 2, 2⟩

/-- The radius (in meters) whose angular distance is `3π/2`: a value for
which `math.asin` in `get_bounding_box` receives an argument below `-1`. -/
noncomputable def hugeRadius : ℝ := 6371000 * (3 * Real.pi / 2)

-- ---------------------------------------------------------------------------
-- Shared lemmas
-- ---------------------------------------------------------------------------

theorem find?_split {α : Type} (p : α → Bool) :
    ∀ (l : List α) (a : α), l.find? p = some a →
      ∃ pre post, l = pre ++ a :: post ∧ ∀ x ∈ pre, p x = false := by
  intro l
  induction l with
  | nil => intro a h; simp [List.find?] at h
  | cons y ys ih =>
      intro a h
      by_cases hy : p y
      · rw [List.find?_cons_of_pos _ hy, Option.some_inj] at h
        exact ⟨[], ys, by simp [h], by simp⟩
      · rw [List.find?_cons_of_neg _ hy] at h
        obtain ⟨pre, post, hsplit, hpre⟩ := ih a h
        refine ⟨y :: pre, post, by simp [hsplit], ?_⟩
        intro x hx
        rcases List.mem_cons.mp hx with rfl | hx'
        · exact Bool.eq_false_iff.mpr hy
        · exact hpre x hx'

theorem find?_isSome_of_mem {α : Type} (p : α → Bool) (l : List α) (a : α)
    (ha : a ∈ l) (hp : p a = true) : (l.find? p).isSome := by
  induction l with
  | nil => simp at ha
  | cons y ys ih =>
      by_cases hy : p y
      · simp [List.find?_cons_of_pos _ hy]
      · rw [List.find?_cons_of_neg _ hy]
        rcases List.mem_cons.mp ha with rfl | ha'
        · exact absurd hp (by simpa using hy)
        · exact ih ha'

-- ---------------------------------------------------------------------------
-- C1: find_covering_cache
-- ---------------------------------------------------------------------------

/-- C1: for every store state and query bbox, `find_covering_cache` returns
an area only if that area's bbox contains the query bbox on every edge; among
the indexed areas satisfying this, the earliest in index order is returned
(every earlier entry fails the covering test); and a query bbox exactly equal
to a stored area's bbox is found as covering (the lookup returns some area). -/
theorem find_covering_cache_first_covering {β : Type}
    (s : StoreState β) (b : Bbox) :
    (∀ a, (find_covering_cache s b).1 = some a →
        a.bbox.min_lon ≤ b.min_lon ∧ a.bbox.min_lat ≤ b.min_lat ∧
        a.bbox.max_lon ≥ b.max_lon ∧ a.bbox.max_lat ≥ b.max_lat) ∧
    (∀ a, (find_covering_cache s b).1 = some a →
        ∃ pre post, (ensure_fresh s).memIndex = pre ++ a :: post ∧
          ∀ a' ∈ pre, covers a' b = false) ∧
    (∀ a ∈ (ensure_fresh s).memIndex, a.bbox = b →
        ((find_covering_cache s b).1).isSome) := by
  refine ⟨?_, ?_, ?_⟩
  · intro a h
    have h' : (ensure_fresh s).memIndex.find? (fun x => covers x b) = some a := h
    have hp := List.find?_some h'
    simp only [covers, Bool.and_eq_true, decide_eq_true_eq] at hp
    exact ⟨hp.1.1.1, hp.1.1.2, hp.1.2, hp.2⟩
  · intro a h
    have h' : (ensure_fresh s).memIndex.find? (fun x => covers x b) = some a := h
    exact find?_split _ _ a h'
  · intro a ha hab
    exact find?_isSome_of_mem _ _ a ha (by simp [covers, hab])

/-- Witness for C1 on a concrete store: the returned area covers the inner
query bbox, and a query with `sampleArea`'s own bbox is found. -/
theorem find_covering_cache_first_covering_witness :
    (sampleArea.bbox.min_lon ≤ innerBbox.min_lon ∧
     sampleArea.bbox.min_lat ≤ innerBbox.min_lat ∧
     sampleArea.bbox.max_lon ≥ innerBbox.max_lon ∧
     sampleArea.bbox.max_lat ≥ innerBbox.max_lat) ∧
    ((find_covering_cache sampleStore sampleArea.bbox).1).isSome :=
  ⟨(find_covering_cache_first_covering sampleStore innerBbox).1 sampleArea
      (by decide),
   (find_covering_cache_first_covering sampleStore sampleArea.bbox).2.2
      sampleArea (by decide) rfl⟩

-- ---------------------------------------------------------------------------
-- C5: memo cache TTL
-- ---------------------------------------------------------------------------

/-- C5: a memo entry inserted at time `T` under a quantized key is a hit at
every lookup time strictly before `T + 300` and a miss at every time at or
after `T + 300`; the expired lookup removes the entry. -/
theorem memo_ttl_law {β : Type} (m : Memo β) (k : ℚ × ℚ × ℚ)
    (v : List β) (T t : ℚ) :
    (t < T + CACHE_TTL_SECONDS →
      cacheGet (cachePut m k v T) k t = (some v, cachePut m k v T)) ∧
    (T + CACHE_TTL_SECONDS ≤ t →
      cacheGet (cachePut m k v T) k t =
        (none, dictDelete (cachePut m k v T) k)) := by
  have hget : dictGet (cachePut m k v T) k = some (v, T) := by
    unfold cachePut
    exact dictGet_dictInsert_self _ _ _
  constructor
  · intro h
    unfold cacheGet
    rw [hget]
    simp only [sub_lt_iff_lt_add']
    rw [if_pos (by linarith)]
  · intro h
    unfold cacheGet
    rw [hget]
    simp only [sub_lt_iff_lt_add']
    rw [if_neg (by linarith)]

/-- Witness for C5: an entry inserted at time 0 hits at time 299 and misses
(and is evicted) at time 300. -/
theorem memo_ttl_law_witness :
    (cacheGet (cachePut ([] : Memo ℕ) (1, 2, 3) [7] 0) (1, 2, 3) 299 =
      (some [7], cachePut ([] : Memo ℕ) (1, 2, 3) [7] 0)) ∧
    (cacheGet (cachePut ([] : Memo ℕ) (1, 2, 3) [7] 0) (1, 2, 3) 300 =
      (none, dictDelete (cachePut ([] : Memo ℕ) (1, 2, 3) [7] 0) (1, 2, 3))) :=
  ⟨(memo_ttl_law [] (1, 2, 3) [7] 0 299).1
      (by norm_num [CACHE_TTL_SECONDS]),
   (memo_ttl_law [] (1, 2, 3) [7] 0 300).2
      (by norm_num [CACHE_TTL_SECONDS])⟩

-- ---------------------------------------------------------------------------
-- C10: get_stats consistency
-- ---------------------------------------------------------------------------

/-- C10: `get_stats` is consistent with `get_cached_areas`: `total_areas` is
the number of listed areas, `total_buildings` the sum of their
`building_count` fields and `total_size_bytes` the sum of their
`file_size_bytes` fields, a missing field counting as 0. -/
theorem get_stats_consistent {β : Type} (s : StoreState β) :
    (get_stats s).1.total_areas = (get_cached_areas s).1.length ∧
    (get_stats s).1.total_buildings =
      ((get_cached_areas s).1.map (fun a => a.building_count.getD 0)).sum ∧
    (get_stats s).1.total_size_bytes =
      ((get_cached_areas s).1.map (fun a => a.file_size_bytes.getD 0)).sum :=
  ⟨rfl, rfl, rfl⟩

-- ---------------------------------------------------------------------------
-- C3: zero-record download
-- ---------------------------------------------------------------------------

/-- C3: for every bbox that passes the size validation and whose remote
download yields zero building records, `cache_area` returns a null result
(`.ok none`, not an error), creates no index entry and leaves the store —
index, files and mtimes — exactly unchanged. -/
theorem cache_area_zero_records {β : Type} (s : StoreState β) (bbox : Bbox)
    (name : String) (center_lat center_lon : ℚ) (radius_km : Option ℚ)
    (cosCenterLat : ℚ) (download : List (List β)) (hasGeometry : Bool)
    (newId : String) (fileSize : ℕ) (now newMtime : ℚ)
    (hsize : (estimate_cache_size bbox cosCenterLat).area_km2 ≤ MAX_CACHE_AREA_KM2)
    (hzero : (download.map List.length).sum = 0) :
    cache_area s bbox name center_lat center_lon radius_km cosCenterLat
      download hasGeometry newId fileSize now newMtime = (.ok none, s) := by
  unfold cache_area
  rw [if_neg (not_lt.mpr hsize), if_pos (Or.inr hzero)]

/-- Witness for C3: the spec's scenario bbox `(-95.82, 36.05, -95.81, 36.07)`
(with `cos(36.06°) ≈ 0.808`) and an empty download stream leave the sample
store untouched and yield a null result. -/
theorem cache_area_zero_records_witness :
    ((estimate_cache_size ⟨-9582/100, 3605/100, -9581/100, 3607/100⟩
        (808/1000)).area_km2 ≤ MAX_CACHE_AREA_KM2 ∧
      (([] : List (List ℕ)).map List.length).sum = 0) ∧
    cache_area sampleStore ⟨-9582/100, 3605/100, -9581/100, 3607/100⟩
      "tulsa-downtown" (3606/100) (-958150/10000) none (808/1000)
      [] true "beef1234" 0 5 6 = (.ok none, sampleStore) :=
  ⟨⟨by norm_num [estimate_cache_size, MAX_CACHE_AREA_KM2, round2, roundTo,
        roundHalfEven, abs_of_nonneg], rfl⟩,
   cache_area_zero_records sampleStore _ _ _ _ _ _ _ _ _ _ _ _
     (by norm_num [estimate_cache_size, MAX_CACHE_AREA_KM2, round2, roundTo,
        roundHalfEven, abs_of_nonneg]) rfl⟩

-- ---------------------------------------------------------------------------
-- C4: size-limit rejection before any work
-- ---------------------------------------------------------------------------

/-- C4: for every bbox whose estimated area exceeds 10,000 km², `cache_area`
fails with the size-limit `ValueError` before contacting the remote source
(the outcome is the same for every possible download stream) and before
writing any file or index entry (the store is unchanged); and `start_cache`
rejects the request leaving the task registry without any new record. -/
theorem size_limit_rejected_before_work {β : Type} (s : StoreState β)
    (bbox : Bbox) (name : String) (center_lat center_lon : ℚ)
    (radius_km : Option ℚ) (cosCenterLat : ℚ) (hasGeometry : Bool)
    (newId : String) (fileSize : ℕ) (now newMtime : ℚ)
    (tasks : List (String × TaskRec)) (newTaskId : String)
    (hsize : MAX_CACHE_AREA_KM2 < (estimate_cache_size bbox cosCenterLat).area_km2) :
    (∀ download : List (List β),
      cache_area s bbox name center_lat center_lon radius_km cosCenterLat
        download hasGeometry newId fileSize now newMtime = (.error (), s)) ∧
    start_cache tasks bbox cosCenterLat newTaskId = (.error (), tasks) := by
  constructor
  · intro download
    unfold cache_area
    rw [if_pos hsize]
  · unfold start_cache
    rw [if_pos (show (10000 : ℚ) < (estimate_cache_size bbox cosCenterLat).area_km2 from hsize)]

/-- Witness for C4: the spec's scenario — a 1°×1° bbox at latitude 36°
(`cos 36° ≈ 0.809`, estimated area ≈ 10,025 km² > 10,000) — is rejected by
`cache_area` (for any download) and by `start_cache`, each leaving its state
unchanged. -/
theorem size_limit_rejected_before_work_witness :
    (MAX_CACHE_AREA_KM2 <
      (estimate_cache_size ⟨0, 355/10, 1, 365/10⟩ (809/1000)).area_km2) ∧
    cache_area sampleStore ⟨0, 355/10, 1, 365/10⟩ "big" 36 (1/2) none
      (809/1000) [[1, 2]] true "beef5678" 9 5 6 = (.error (), sampleStore) ∧
    start_cache [] ⟨0, 355/10, 1, 365/10⟩ (809/1000) "task1" =
      (.error (), []) :=
  ⟨by norm_num [estimate_cache_size, MAX_CACHE_AREA_KM2, round2, roundTo,
      roundHalfEven, abs_of_nonneg],
   (size_limit_rejected_before_work sampleStore _ _ _ _ _ _ _ _ _ _ _ []
      "task1"
      (by norm_num [estimate_cache_size, MAX_CACHE_AREA_KM2, round2, roundTo,
        roundHalfEven, abs_of_nonneg])).1 [[1, 2]],
   (size_limit_rejected_before_work sampleStore ⟨0, 355/10, 1, 365/10⟩ "big"
      36 (1/2) none (809/1000) true "beef5678" 9 5 6 [] "task1"
      (by norm_num [estimate_cache_size, MAX_CACHE_AREA_KM2, round2, roundTo,
        roundHalfEven, abs_of_nonneg])).2⟩

-- ---------------------------------------------------------------------------
-- C6: memo cache capacity
-- ---------------------------------------------------------------------------

/-- C6 counterexample: with the memo cache at its 50-entry capacity, a query
that misses every tier and receives zero records from the remote source
stores its empty result through the unguarded insertion
(ms_buildings.py lines 148-150), leaving 51 entries: the cache does exceed
50 entries, and this insertion at capacity evicts nothing. -/
theorem memo_overflow_counterexample :
    ((fetch_and_filter_buildings fullSys 1000 0 0 innerBbox (fun _ => true)
        (fun _ => true) (.ok []) true 1 1).2.memo).length =
      CACHE_MAX_SIZE + 1 := by
  have hkey : get_cache_key 1000 0 0 = (1000, 0, 0) := by
    norm_num [get_cache_key, roundTo, roundHalfEven]
  simp only [fetch_and_filter_buildings, hkey]
  decide

/-- C6 (amended): the guarded insertions (disk-cache and nonempty remote
paths, ms_buildings.py lines 128-131 and 184-187) do respect the bound —
performed at 50 entries with a fresh key they first evict exactly one entry,
one with the oldest insertion timestamp, leaving exactly 50 — but the
empty-result insertions bypass the capacity check, so a 51st distinct key
stored through them leaves 51 entries. -/
theorem memo_capacity_law {β : Type} (m : Memo β) (k : ℚ × ℚ × ℚ)
    (v : List β) (t : ℚ)
    (hlen : m.length = CACHE_MAX_SIZE) (hnew : k ∉ m.map Prod.fst) :
    (∃ o ∈ m, (∀ e ∈ m, o.2.2 ≤ e.2.2) ∧
        cachePut m k v t = dictInsert (dictDelete m o.1) k (v, t) ∧
        (cachePut m k v t).length = CACHE_MAX_SIZE) ∧
    (dictInsert m k (v, t)).length = CACHE_MAX_SIZE + 1 := by
  have hne : m ≠ [] := by
    intro h
    rw [h] at hlen
    simp [CACHE_MAX_SIZE] at hlen
  obtain ⟨x, xs, rfl⟩ : ∃ x xs, m = x :: xs := by
    cases m with
    | nil => exact absurd rfl hne
    | cons x xs => exact ⟨x, xs, rfl⟩
  have ho : minByTime (x :: xs) =
      some (xs.foldl (fun b y => if y.2.2 < b.2.2 then y else b) x) := rfl
  set o := xs.foldl (fun b y => if y.2.2 < b.2.2 then y else b) x with ho_def
  have homem : o ∈ x :: xs := minByTime_mem _ o ho
  have hole : ∀ e ∈ x :: xs, o.2.2 ≤ e.2.2 := minByTime_le _ o ho
  have hput : cachePut (x :: xs) k v t =
      dictInsert (dictDelete (x :: xs) o.1) k (v, t) := by
    unfold cachePut
    rw [if_pos (le_of_eq hlen.symm), ho]
  have hkeymem : o.1 ∈ (x :: xs).map Prod.fst :=
    List.mem_map_of_mem Prod.fst homem
  have hdel : (dictDelete (x :: xs) o.1).length + 1 = (x :: xs).length :=
    dictDelete_length_of_mem _ _ hkeymem
  have hnew' : k ∉ (dictDelete (x :: xs) o.1).map Prod.fst :=
    fun hmem => hnew (dictDelete_keys_subset _ _ _ hmem)
  have hlen' : (cachePut (x :: xs) k v t).length = CACHE_MAX_SIZE := by
    rw [hput, dictInsert_length_of_not_mem _ _ _ hnew']
    omega
  exact ⟨⟨o, homem, hole, hput, hlen'⟩,
    by rw [dictInsert_length_of_not_mem _ _ _ hnew, hlen]⟩

/-- Witness for C6 (amended) at a concrete full cache: the guarded insertion
of a fresh key leaves 50 entries, the unguarded one leaves 51. -/
theorem memo_capacity_law_witness :
    (∃ o ∈ fullMemo, (∀ e ∈ fullMemo, o.2.2 ≤ e.2.2) ∧
        cachePut fullMemo (1000, 0, 0) [] 1 =
          dictInsert (dictDelete fullMemo o.1) (1000, 0, 0) ([], 1) ∧
        (cachePut fullMemo (1000, 0, 0) [] 1).length = CACHE_MAX_SIZE) ∧
    (dictInsert fullMemo (1000, 0, 0) ([], 1)).length = CACHE_MAX_SIZE + 1 :=
  memo_capacity_law fullMemo (1000, 0, 0) [] 1 (by decide) (by decide)

-- ---------------------------------------------------------------------------
-- C7: freshness reloads and whole-file rewrites
-- ---------------------------------------------------------------------------

/-- C7: if the on-disk index file is newer than the last-loaded timestamp,
every read (list, covering lookup, overlap lookup, load) is answered from the
reloaded disk contents; and every mutation goes through `save_index`, which
rewrites the whole index file from the in-process view and records the
resulting mtime, so the store's own write never triggers a reload on the next
read — each mutating operation either leaves the state alone (no write), or
ends in a state whose disk contents equal the in-process view and on which
the freshness check is a no-op. -/
theorem freshness_and_rewrite_protocol {β : Type} (s : StoreState β)
    (b : Bbox) (area_id : String) (now newMtime : ℚ) (name : String)
    (center_lat center_lon cosCenterLat : ℚ) (radius_km : Option ℚ)
    (download : List (List β)) (hasGeometry : Bool) (newId : String)
    (fileSize : ℕ) :
    (s.memMtime < s.diskMtime →
      (get_cached_areas s).1 = s.diskIndex ∧
      (find_covering_cache s b).1 = s.diskIndex.find? (fun a => covers a b) ∧
      (find_overlapping s b).1 = s.diskIndex.filter (fun a => overlaps a b) ∧
      load_geodataframe s area_id now newMtime =
        load_geodataframe
          { s with memIndex := s.diskIndex, memMtime := s.diskMtime }
          area_id now newMtime) ∧
    (∀ (s' : StoreState β) (t : ℚ),
      (save_index s' t).diskIndex = (save_index s' t).memIndex ∧
      ensure_fresh (save_index s' t) = save_index s' t) ∧
    ((delete_area s area_id newMtime).2 = s ∨
      ((delete_area s area_id newMtime).2.diskIndex =
          (delete_area s area_id newMtime).2.memIndex ∧
        ensure_fresh (delete_area s area_id newMtime).2 =
          (delete_area s area_id newMtime).2)) ∧
    ((clear_all s newMtime).2.diskIndex = (clear_all s newMtime).2.memIndex ∧
      ensure_fresh (clear_all s newMtime).2 = (clear_all s newMtime).2) ∧
    ((cache_area s b name center_lat center_lon radius_km cosCenterLat
        download hasGeometry newId fileSize now newMtime).2 = s ∨
      ((cache_area s b name center_lat center_lon radius_km cosCenterLat
          download hasGeometry newId fileSize now newMtime).2.diskIndex =
        (cache_area s b name center_lat center_lon radius_km cosCenterLat
          download hasGeometry newId fileSize now newMtime).2.memIndex ∧
       ensure_fresh (cache_area s b name center_lat center_lon radius_km
          cosCenterLat download hasGeometry newId fileSize now newMtime).2 =
        (cache_area s b name center_lat center_lon radius_km cosCenterLat
          download hasGeometry newId fileSize now newMtime).2)) ∧
    ((load_geodataframe s area_id now newMtime).2 = ensure_fresh s ∨
      ((load_geodataframe s area_id now newMtime).2.diskIndex =
          (load_geodataframe s area_id now newMtime).2.memIndex ∧
        ensure_fresh (load_geodataframe s area_id now newMtime).2 =
          (load_geodataframe s area_id now newMtime).2)) := by
  have hsave : ∀ (s' : StoreState β) (t : ℚ),
      (save_index s' t).diskIndex = (save_index s' t).memIndex ∧
      ensure_fresh (save_index s' t) = save_index s' t := by
    intro s' t
    refine ⟨rfl, ?_⟩
    simp [ensure_fresh, save_index]
  refine ⟨?_, hsave, ?_, ?_, ?_, ?_⟩
  · intro hstale
    have h1 : ensure_fresh s =
        { s with memIndex := s.diskIndex, memMtime := s.diskMtime } := by
      simp [ensure_fresh, if_pos hstale]
    have h2 : ensure_fresh
        { s with memIndex := s.diskIndex, memMtime := s.diskMtime } =
        { s with memIndex := s.diskIndex, memMtime := s.diskMtime } := by
      simp [ensure_fresh]
    refine ⟨?_, ?_, ?_, ?_⟩
    · show (ensure_fresh s).memIndex = s.diskIndex
      rw [h1]
    · show (ensure_fresh s).memIndex.find? _ = _
      rw [h1]
    · show (ensure_fresh s).memIndex.filter _ = _
      rw [h1]
    · unfold load_geodataframe
      rw [h1, h2]
  · unfold delete_area
    cases hfind : s.memIndex.find? (fun a => a.id = area_id) with
    | none => exact Or.inl rfl
    | some a => exact Or.inr ⟨(hsave _ newMtime).1, (hsave _ newMtime).2⟩
  · exact ⟨(hsave _ newMtime).1, (hsave _ newMtime).2⟩
  · by_cases hbig :
        MAX_CACHE_AREA_KM2 < (estimate_cache_size b cosCenterLat).area_km2
    · left
      unfold cache_area
      rw [if_pos hbig]
    · by_cases hzero :
          download.isEmpty = true ∨ (download.map List.length).sum = 0
      · left
        unfold cache_area
        rw [if_neg hbig, if_pos hzero]
      · by_cases hgeom : (!hasGeometry) = true
        · left
          unfold cache_area
          rw [if_neg hbig, if_neg hzero, if_pos hgeom]
        · right
          unfold cache_area
          rw [if_neg hbig, if_neg hzero, if_neg hgeom]
          exact ⟨(hsave _ newMtime).1, (hsave _ newMtime).2⟩
  · simp only [load_geodataframe]
    split
    · exact Or.inl rfl
    · split
      · exact Or.inl rfl
      · exact Or.inl rfl
      · exact Or.inr ⟨(hsave _ newMtime).1, (hsave _ newMtime).2⟩

/-- Witness for C7: on a store whose index file was externally rewritten
(disk mtime 2, last load at mtime 1), the reads are answered from the disk
contents. -/
theorem freshness_and_rewrite_protocol_witness :
    (get_cached_areas staleStore).1 = staleStore.diskIndex ∧
    (find_covering_cache staleStore innerBbox).1 =
      staleStore.diskIndex.find? (fun a => covers a innerBbox) ∧
    (find_overlapping staleStore innerBbox).1 =
      staleStore.diskIndex.filter (fun a => overlaps a innerBbox) ∧
    load_geodataframe staleStore "a1" 5 6 =
      load_geodataframe
        { staleStore with memIndex := staleStore.diskIndex,
                          memMtime := staleStore.diskMtime } "a1" 5 6 :=
  (freshness_and_rewrite_protocol staleStore innerBbox "a1" 5 6 "n"
      0 0 0 none [] true "x" 0).1 (by decide)

-- ---------------------------------------------------------------------------
-- C8: point-radius queries never mutate the durable store
-- ---------------------------------------------------------------------------

theorem ensure_fresh_files {β : Type} (s : StoreState β) :
    (ensure_fresh s).files = s.files ∧
    (ensure_fresh s).diskIndex = s.diskIndex ∧
    (ensure_fresh s).diskMtime = s.diskMtime := by
  unfold ensure_fresh
  split <;> exact ⟨rfl, rfl, rfl⟩

theorem coherent_ensure_fresh {β : Type} (s : StoreState β)
    (h : coherent s) : coherent (ensure_fresh s) := by
  unfold ensure_fresh
  rcases h with h | h
  · rw [if_pos h]
    exact Or.inr rfl
  · split
    · exact Or.inr rfl
    · exact Or.inr h

theorem ensure_fresh_memIndex {β : Type} (s : StoreState β)
    (h : coherent s) : (ensure_fresh s).memIndex = s.diskIndex := by
  unfold ensure_fresh
  split
  · rfl
  · rename_i hnot
    rcases h with h' | h'
    · exact absurd h' hnot
    · exact h'

theorem bumpAccess_strip (l : List AreaEntry) (i : String) (t : ℚ) :
    (bumpAccess l i t).map stripAccess = l.map stripAccess := by
  induction l with
  | nil => rfl
  | cons a rest ih =>
      unfold bumpAccess
      split
      · simp [stripAccess]
      · simp only [List.map_cons, ih]

theorem load_geodataframe_frame {β : Type} (s : StoreState β)
    (area_id : String) (now newMtime : ℚ) (h : coherent s) :
    (load_geodataframe s area_id now newMtime).2.files = s.files ∧
    (load_geodataframe s area_id now newMtime).2.diskIndex.map stripAccess =
      s.diskIndex.map stripAccess := by
  simp only [load_geodataframe]
  split
  · exact ⟨(ensure_fresh_files s).1, by rw [(ensure_fresh_files s).2.1]⟩
  · split
    · exact ⟨(ensure_fresh_files s).1, by rw [(ensure_fresh_files s).2.1]⟩
    · exact ⟨(ensure_fresh_files s).1, by rw [(ensure_fresh_files s).2.1]⟩
    · refine ⟨(ensure_fresh_files s).1, ?_⟩
      show (bumpAccess (ensure_fresh s).memIndex area_id now).map stripAccess =
        s.diskIndex.map stripAccess
      rw [bumpAccess_strip, ensure_fresh_memIndex s h]

/-- C8: resolving a point-radius query through any tier (memo hit, disk-cache
hit, remote fetch, or any fallthrough between them) never adds or removes an
entry in the durable store: the data files are untouched and the on-disk
index holds the same entries with all fields unchanged except possibly a
`last_accessed` timestamp; only the in-memory memo cache may otherwise
change.  The store is assumed `coherent` (its in-process view agrees with
disk or disk is newer), which every single-process execution maintains. -/
theorem query_resolution_frame {β : Type} (sys : Sys β)
    (lat lon radius_meters : ℚ) (bbox : Bbox) (inBbox inCircle : β → Bool)
    (remote : Except Unit (List β)) (hasGeometry : Bool) (now newMtime : ℚ)
    (h : coherent sys.store) :
    (fetch_and_filter_buildings sys lat lon radius_meters bbox inBbox
        inCircle remote hasGeometry now newMtime).2.store.files =
      sys.store.files ∧
    (fetch_and_filter_buildings sys lat lon radius_meters bbox inBbox
        inCircle remote hasGeometry now newMtime).2.store.diskIndex.map
        stripAccess =
      sys.store.diskIndex.map stripAccess := by
  have hstep : ∀ (m : Memo β) (st : StoreState β),
      (remote_query_step m st (get_cache_key lat lon radius_meters) inCircle
        remote hasGeometry now).2.store = st := by
    intro m st
    unfold remote_query_step
    rcases remote with _ | rows
    · rfl
    · by_cases h0 : rows.length = 0
      · simp only [if_pos h0]
      · simp only [if_neg h0]
        by_cases hg : (!hasGeometry) = true
        · simp only [if_pos hg]
        · simp only [if_neg hg]
  have hfrom : ∀ st : StoreState β, st.files = sys.store.files →
      st.diskIndex.map stripAccess = sys.store.diskIndex.map stripAccess →
      ∀ p : List β × Sys β, p.2.store = st →
        p.2.store.files = sys.store.files ∧
        p.2.store.diskIndex.map stripAccess =
          sys.store.diskIndex.map stripAccess := by
    intro st h1 h2 p hp
    rw [hp]
    exact ⟨h1, h2⟩
  have hfresh1 : (ensure_fresh sys.store).files = sys.store.files :=
    (ensure_fresh_files sys.store).1
  have hfresh2 : (ensure_fresh sys.store).diskIndex.map stripAccess =
      sys.store.diskIndex.map stripAccess := by
    rw [(ensure_fresh_files sys.store).2.1]
  simp only [fetch_and_filter_buildings]
  split
  · exact ⟨rfl, rfl⟩
  · split
    · -- no covering area: the remote step leaves the store at
      -- `ensure_fresh sys.store`
      exact hfrom _ hfresh1 hfresh2 _ (hstep _ _)
    · -- covering area found: the load may bump `last_accessed`; every
      -- further step leaves the store where the load attempt left it
      rename_i covering hcov
      have hld := load_geodataframe_frame (ensure_fresh sys.store)
        covering.id now newMtime (coherent_ensure_fresh _ h)
      rw [hfresh1] at hld
      rw [(ensure_fresh_files sys.store).2.1] at hld
      split
      · exact hfrom _ hld.1 hld.2 _ (hstep _ _)
      · exact hfrom _ hld.1 hld.2 _ (hstep _ _)
      · split
        · exact hld
        · exact hfrom _ hld.1 hld.2 _ (hstep _ _)

/-- Witness for C8 on a concrete coherent system: a query that falls through
to a remote error over `sampleStore` leaves its files and index intact. -/
theorem query_resolution_frame_witness :
    (fetch_and_filter_buildings { memo := [], store := sampleStore } 1000 0 0
        innerBbox (fun _ => true) (fun _ => true) (.error ()) true 7
        8).2.store.files = sampleStore.files ∧
    (fetch_and_filter_buildings { memo := [], store := sampleStore } 1000 0 0
        innerBbox (fun _ => true) (fun _ => true) (.error ()) true 7
        8).2.store.diskIndex.map stripAccess =
      sampleStore.diskIndex.map stripAccess :=
  query_resolution_frame { memo := [], store := sampleStore } 1000 0 0
    innerBbox (fun _ => true) (fun _ => true) (.error ()) true 7 8
    (Or.inr rfl)

-- ---------------------------------------------------------------------------
-- C2: remote-fetch failure after a full cache miss
-- ---------------------------------------------------------------------------

/-- C2 counterexample: on an empty system (memo miss, no covering area), a
query whose remote fetch raises returns exactly `(0, 0.0, 0.0)` from
`count_buildings_in_radius` — the same caller-visible result as a query whose
remote fetch legitimately returns zero records.  The failure is swallowed
(ms_buildings.py lines 163-167 catch the exception and return an empty
GeoDataFrame), not surfaced. -/
theorem remote_error_masked_counterexample :
    (count_buildings_in_radius emptySys 36 (-95) 500 innerBbox (fun _ => true)
        (fun _ => true) (.error ()) true 1 1 (fun _ => 0)).1 = (0, 0, 0) ∧
    (count_buildings_in_radius emptySys 36 (-95) 500 innerBbox (fun _ => true)
        (fun _ => true) (.ok []) true 1 1 (fun _ => 0)).1 = (0, 0, 0) :=
  ⟨rfl, rfl⟩

/-- C2 (amended): when the memo cache misses and the durable store has no
covering area, a remote fetch error is caught, an empty row set is returned,
and `count_buildings_in_radius` yields `(0, 0.0, 0.0)` — indistinguishable
from a legitimate zero-building result; no failure reaches the caller. -/
theorem remote_error_returns_empty {β : Type} (sys : Sys β)
    (lat lon radius_meters : ℚ) (bbox : Bbox) (inBbox inCircle : β → Bool)
    (hasGeometry : Bool) (now newMtime : ℚ) (areaOf : β → ℚ)
    (hmiss :
      (cacheGet sys.memo (get_cache_key lat lon radius_meters) now).1 = none)
    (hnocover : (find_covering_cache sys.store bbox).1 = none) :
    fetch_and_filter_buildings sys lat lon radius_meters bbox inBbox inCircle
        (.error ()) hasGeometry now newMtime =
      ([], { memo := (cacheGet sys.memo
                (get_cache_key lat lon radius_meters) now).2,
             store := (find_covering_cache sys.store bbox).2 }) ∧
    (count_buildings_in_radius sys lat lon radius_meters bbox inBbox inCircle
        (.error ()) hasGeometry now newMtime areaOf).1 = (0, 0, 0) := by
  have h1 : fetch_and_filter_buildings sys lat lon radius_meters bbox inBbox
      inCircle (.error ()) hasGeometry now newMtime =
      ([], { memo := (cacheGet sys.memo
                (get_cache_key lat lon radius_meters) now).2,
             store := (find_covering_cache sys.store bbox).2 }) := by
    simp only [fetch_and_filter_buildings]
    rw [hmiss, hnocover]
    rfl
  refine ⟨h1, ?_⟩
  unfold count_buildings_in_radius
  rw [h1]
  rfl

/-- Witness for C2 (amended) on the concrete empty system. -/
theorem remote_error_returns_empty_witness :
    fetch_and_filter_buildings emptySys 36 (-95) 500 innerBbox
        (fun _ => true) (fun _ => true) (.error ()) true 1 1 =
      ([], { memo := (cacheGet emptySys.memo
                (get_cache_key 36 (-95) 500) 1).2,
             store := (find_covering_cache emptySys.store innerBbox).2 }) ∧
    (count_buildings_in_radius emptySys 36 (-95) 500 innerBbox
        (fun _ => true) (fun _ => true) (.error ()) true 1 1
        (fun _ => 0)).1 = (0, 0, 0) :=
  remote_error_returns_empty emptySys 36 (-95) 500 innerBbox
    (fun _ => true) (fun _ => true) true 1 1 (fun _ => 0) rfl rfl

-- ---------------------------------------------------------------------------
-- C9: get_bounding_box safety and symmetry
-- ---------------------------------------------------------------------------

/-- C9 counterexample: at latitude 60° with the (enormous) radius whose
angular distance is `3π/2`, the claim's hypotheses hold — the radius is
nonnegative, `sin(r/R) = -1 ≤ cos(60°·π/180) = 1/2`, and the cosine is
positive — yet `get_bounding_box` hits a `math.asin` domain error
(`sin(r/R)/cos(lat_rad) = -2 ∉ [-1, 1]`), returning no bounding box. -/
theorem get_bounding_box_domain_error_counterexample :
    (0 ≤ hugeRadius ∧
     Real.sin (hugeRadius / 6371000) ≤
       Real.cos ((60 : ℝ) * (Real.pi / 180)) ∧
     0 < Real.cos ((60 : ℝ) * (Real.pi / 180))) ∧
    get_bounding_box 60 0 hugeRadius = none := by
  have hang : hugeRadius / 6371000 = 3 * Real.pi / 2 := by
    rw [hugeRadius, mul_comm, mul_div_assoc]
    norm_num
  have hsin : Real.sin (hugeRadius / 6371000) = -1 := by
    rw [hang, show (3 : ℝ) * Real.pi / 2 = Real.pi / 2 + Real.pi by ring,
      Real.sin_add_pi, Real.sin_pi_div_two]
  have hcos : Real.cos ((60 : ℝ) * (Real.pi / 180)) = 1 / 2 := by
    rw [show (60 : ℝ) * (Real.pi / 180) = Real.pi / 3 by ring,
      Real.cos_pi_div_three]
  refine ⟨⟨?_, ?_, ?_⟩, ?_⟩
  · rw [hugeRadius]
    positivity
  · rw [hsin, hcos]
    norm_num
  · rw [hcos]
    norm_num
  · have hneg : ¬ |((-1 : ℝ)) / (1 / 2)| ≤ 1 := by
      rw [show ((-1 : ℝ)) / (1 / 2) = -2 by norm_num, abs_le]
      rintro ⟨h1, h2⟩
      linarith
    simp only [get_bounding_box]
    rw [hsin, hcos, if_neg hneg]

/-- C9 (amended): for every center and nonnegative radius such that
`sin(r/R)` is nonnegative and at most `cos(lat·π/180)`, with the cosine
positive, `get_bounding_box` completes without a domain error and returns
`(min_lon, min_lat, max_lon, max_lat)` containing the center and symmetric
about it on both axes.  (The nonnegativity of `sin(r/R)` — e.g. any radius up
to a quarter of Earth's circumference — is needed: for radii with
`sin(r/R) < 0` the `asin` argument can fall below −1.) -/
theorem get_bounding_box_conservative (lat lon radius_meters : ℝ)
    (hr : 0 ≤ radius_meters)
    (hs0 : 0 ≤ Real.sin (radius_meters / 6371000))
    (hsc : Real.sin (radius_meters / 6371000) ≤
      Real.cos (lat * (Real.pi / 180)))
    (hc : 0 < Real.cos (lat * (Real.pi / 180))) :
    ∃ bb : ℝ × ℝ × ℝ × ℝ,
      get_bounding_box lat lon radius_meters = some bb ∧
      bb.2.1 ≤ lat ∧ lat ≤ bb.2.2.2 ∧ bb.1 ≤ lon ∧ lon ≤ bb.2.2.1 ∧
      lat - bb.2.1 = bb.2.2.2 - lat ∧ lon - bb.1 = bb.2.2.1 - lon := by
  have hpi : (0 : ℝ) < Real.pi := Real.pi_pos
  have hipi : (0 : ℝ) < 180 / Real.pi := by positivity
  have hang0 : (0 : ℝ) ≤ radius_meters / 6371000 := by positivity
  have hx0 : 0 ≤ Real.sin (radius_meters / 6371000) /
      Real.cos (lat * (Real.pi / 180)) := div_nonneg hs0 hc.le
  have hx1 : Real.sin (radius_meters / 6371000) /
      Real.cos (lat * (Real.pi / 180)) ≤ 1 := (div_le_one hc).mpr hsc
  have habs : |Real.sin (radius_meters / 6371000) /
      Real.cos (lat * (Real.pi / 180))| ≤ 1 := abs_le.mpr ⟨by linarith, hx1⟩
  have harc : 0 ≤ Real.arcsin (Real.sin (radius_meters / 6371000) /
      Real.cos (lat * (Real.pi / 180))) := Real.arcsin_nonneg.mpr hx0
  have hlatid : lat * (Real.pi / 180) * (180 / Real.pi) = lat := by
    field_simp
  have hlonid : lon * (Real.pi / 180) * (180 / Real.pi) = lon := by
    field_simp
  have hmul0 : 0 ≤ radius_meters / 6371000 * (180 / Real.pi) :=
    mul_nonneg hang0 hipi.le
  have harcmul0 : 0 ≤ Real.arcsin (Real.sin (radius_meters / 6371000) /
      Real.cos (lat * (Real.pi / 180))) * (180 / Real.pi) :=
    mul_nonneg harc hipi.le
  refine ⟨((lon * (Real.pi / 180) -
        Real.arcsin (Real.sin (radius_meters / 6371000) /
          Real.cos (lat * (Real.pi / 180)))) * (180 / Real.pi),
      (lat * (Real.pi / 180) - radius_meters / 6371000) * (180 / Real.pi),
      (lon * (Real.pi / 180) +
        Real.arcsin (Real.sin (radius_meters / 6371000) /
          Real.cos (lat * (Real.pi / 180)))) * (180 / Real.pi),
      (lat * (Real.pi / 180) + radius_meters / 6371000) * (180 / Real.pi)),
    ?_, ?_, ?_, ?_, ?_, ?_, ?_⟩
  · simp only [get_bounding_box]
    rw [if_pos habs]
  · show (lat * (Real.pi / 180) - radius_meters / 6371000) *
        (180 / Real.pi) ≤ lat
    rw [sub_mul, hlatid]
    linarith
  · show lat ≤ (lat * (Real.pi / 180) + radius_meters / 6371000) *
        (180 / Real.pi)
    rw [add_mul, hlatid]
    linarith
  · show (lon * (Real.pi / 180) -
        Real.arcsin (Real.sin (radius_meters / 6371000) /
          Real.cos (lat * (Real.pi / 180)))) * (180 / Real.pi) ≤ lon
    rw [sub_mul, hlonid]
    linarith
  · show lon ≤ (lon * (Real.pi / 180) +
        Real.arcsin (Real.sin (radius_meters / 6371000) /
          Real.cos (lat * (Real.pi / 180)))) * (180 / Real.pi)
    rw [add_mul, hlonid]
    linarith
  · show lat - (lat * (Real.pi / 180) - radius_meters / 6371000) *
        (180 / Real.pi) =
      (lat * (Real.pi / 180) + radius_meters / 6371000) *
        (180 / Real.pi) - lat
    rw [sub_mul, add_mul, hlatid]
    ring
  · show lon - (lon * (Real.pi / 180) -
        Real.arcsin (Real.sin (radius_meters / 6371000) /
          Real.cos (lat * (Real.pi / 180)))) * (180 / Real.pi) =
      (lon * (Real.pi / 180) +
        Real.arcsin (Real.sin (radius_meters / 6371000) /
          Real.cos (lat * (Real.pi / 180)))) * (180 / Real.pi) - lon
    rw [sub_mul, add_mul, hlonid]
    ring

/-- Witness for C9 (amended) at the origin with radius 0. -/
theorem get_bounding_box_conservative_witness :
    ∃ bb : ℝ × ℝ × ℝ × ℝ,
      get_bounding_box 0 0 0 = some bb ∧
      bb.2.1 ≤ 0 ∧ 0 ≤ bb.2.2.2 ∧ bb.1 ≤ 0 ∧ 0 ≤ bb.2.2.1 ∧
      0 - bb.2.1 = bb.2.2.2 - 0 ∧ 0 - bb.1 = bb.2.2.1 - 0 :=
  get_bounding_box_conservative 0 0 0 (le_refl 0) (by norm_num)
    (by norm_num) (by norm_num)

end HouseCounter
